import Mathlib

/-!
Shallow embedding of `src/app.js` (an Express + MongoDB CRUD API).

JavaScript request-body values are modelled by `JVal` (JSON-like values;
numbers are rationals).  A request body and a stored document are both
association lists `List (String × JVal)`.  The MongoDB collections are
modelled as association lists from identifier strings to documents; the
store operations (`insertOne`, `findOne`, `updateOne`, `deleteOne`)
are given explicit semantics.  Each route handler becomes a pure
function from the request and the collection state to a `Response`,
the new collection state, and the list of store calls it performed.
-/

namespace Backend3

/-- A JavaScript/JSON value as it appears in a parsed request body or a
stored document.  Numbers are modelled as rationals (NaN/Infinity are out
of scope). -/
inductive JVal where
  | vNull : JVal
  | vUndefined : JVal
  | vBool : Bool → JVal
  | vNum : ℚ → JVal
  | vStr : String → JVal
deriving DecidableEq, Repr

/-- JavaScript truthiness of a value (`!v` in the source is `!v.truthy`).
`undefined`, `null`, `false`, `0` and `""` are falsy. -/
def JVal.truthy : JVal → Bool
  | .vNull => false
  | .vUndefined => false
  | .vBool b => b
  | .vNum q => decide (q ≠ 0)
  | .vStr s => decide (s ≠ "")

/-- `typeof v === 'number'`. -/
def JVal.isNum : JVal → Bool
  | .vNum _ => true
  | _ => false

/-- `typeof v === 'string'`. -/
def JVal.isStr : JVal → Bool
  | .vStr _ => true
  | _ => false

/-- The numeric value of a `vNum`; only consulted after an `isNum` guard,
mirroring the short-circuit `typeof p !== 'number' || p <= 0`. -/
def JVal.asNum : JVal → ℚ
  | .vNum q => q
  | _ => 0

/-- A JavaScript object: an association list of fields. -/
abbrev JObj := List (String × JVal)

/-- Property access `obj.k`: the value stored under key `k`, or
`undefined` when the key is absent. -/
def getField (obj : JObj) (k : String) : JVal :=
  match obj.find? (fun p => p.1 == k) with
  | some p => p.2
  | none => .vUndefined

/-- `ObjectId.isValid`: the Mongo identifier format, a 24-character hex
string. -/
def isHexChar (c : Char) : Bool :=
  c.isDigit || (decide ('a' ≤ c) && decide (c ≤ 'f')) || (decide ('A' ≤ c) && decide (c ≤ 'F'))

/-- Validity of a path-supplied identifier (`ObjectId.isValid(id)` on the
string taken from the URL). -/
def isValidObjectId (s : String) : Bool :=
  s.length == 24 && s.toList.all isHexChar

/-- The state of one MongoDB collection: identifier → document fields
(the `_id` itself is kept as the key, not repeated inside the fields). -/
abbrev CollState := List (String × JObj)

/-- `findOne({_id})` / lookup by identifier. -/
def findDoc (st : CollState) (id : String) : Option JObj :=
  match st.find? (fun p => p.1 == id) with
  | some p => some p.2
  | none => none

/-- An HTTP response: status code and JSON body (an object). -/
structure Response where
  status : Nat
  body : JObj
deriving DecidableEq, Repr

/-- One call made to the document store by a handler. -/
inductive StoreCall where
  | findAllItems : StoreCall
  | findItem : String → StoreCall
  | insertItem : JObj → StoreCall
  | updateItem : String → JObj → StoreCall
  | deleteItem : String → StoreCall
  | findUser : JVal → StoreCall
  | insertUser : JObj → StoreCall
deriving DecidableEq, Repr

/-- Result of running an item-route handler: the response, the items
collection afterwards, and the store calls that were made. -/
structure HandlerResult where
  resp : Response
  items : CollState
  calls : List StoreCall
deriving DecidableEq, Repr

/-- Shorthand for a `{ message: ... }` response body. -/
def msgBody (s : String) : JObj := [("message", .vStr s)]

/-! ### POST /items -/

/-- The rejection condition of the create-item handler:
`!newItem.name || typeof newItem.price !== 'number' || newItem.price <= 0`. -/
def itemValBad (nameV priceV : JVal) : Bool :=
  !nameV.truthy || !priceV.isNum || decide (priceV.asNum ≤ 0)

/-- `app.post('/items')`.  Builds `newItem = {name, price}` from the body,
validates, then `insertOne(newItem)`; the store assigns `freshId`. -/
def postItems (body : JObj) (freshId : String) (st : CollState) : HandlerResult :=
  let nameV := getField body "name"
  let priceV := getField body "price"
  let newItem : JObj := [("name", nameV), ("price", priceV)]
  if itemValBad nameV priceV then
    { resp := ⟨400, msgBody "Name (string) and positive Price (number) are required!"⟩,
      items := st, calls := [] }
  else
    { resp := ⟨201, newItem ++ [("_id", .vStr freshId)]⟩,
      items := st ++ [(freshId, newItem)],
      calls := [.insertItem newItem] }

/-! ### GET /items/:id -/

/-- `app.get('/items/:id')`. -/
def getItemById (id : String) (st : CollState) : HandlerResult :=
  if !isValidObjectId id then
    { resp := ⟨400, msgBody "Invalid ID format. Must be a valid MongoDB ObjectId."⟩,
      items := st, calls := [] }
  else
    match findDoc st id with
    | some doc =>
        { resp := ⟨200, doc ++ [("_id", .vStr id)]⟩, items := st, calls := [.findItem id] }
    | none =>
        { resp := ⟨404, msgBody "Item not found!"⟩, items := st, calls := [.findItem id] }

/-! ### DELETE /items/:id -/

/-- `deleteOne({_id})`: removes the document, reporting `deletedCount`. -/
def deleteDoc (st : CollState) (id : String) : Nat × CollState :=
  match findDoc st id with
  | some _ => (1, st.filter (fun p => p.1 != id))
  | none => (0, st)

/-- `app.delete('/items/:id')`. -/
def deleteItemById (id : String) (st : CollState) : HandlerResult :=
  if !isValidObjectId id then
    { resp := ⟨400, msgBody "Invalid ID format. Must be a valid MongoDB ObjectId."⟩,
      items := st, calls := [] }
  else
    let r := deleteDoc st id
    if r.1 == 1 then
      { resp := ⟨200, msgBody "Item has been deleted!"⟩, items := r.2, calls := [.deleteItem id] }
    else
      { resp := ⟨404, msgBody "Item not found!"⟩, items := r.2, calls := [.deleteItem id] }

/-! ### PUT /items/:id -/

/-- BSON serialization applied by the Node driver to each `$set` value:
with the default `ignoreUndefined: false`, a JavaScript `undefined` is
serialized as BSON `null`, so `$set {price: undefined}` stores `null`. -/
def bsonOfJs : JVal → JVal
  | .vUndefined => .vNull
  | v => v

/-- Set one field of a document (replace in place, or append if new). -/
def setKey (doc : JObj) (k : String) (v : JVal) : JObj :=
  if doc.any (fun p => p.1 == k) then
    doc.map (fun p => if p.1 == k then (p.1, v) else p)
  else
    doc ++ [(k, v)]

/-- Apply a `$set` update document to a stored document. -/
def applySet (doc newData : JObj) : JObj :=
  newData.foldl (fun d p => setKey d p.1 (bsonOfJs p.2)) doc

/-- The `{matchedCount, modifiedCount}` pair returned by `updateOne`. -/
structure UpdateResult where
  matchedCount : Nat
  modifiedCount : Nat
deriving DecidableEq, Repr

/-- `updateOne({_id}, {$set: newData})`: matches at most the one document
with this identifier; `modifiedCount` counts it only if a field actually
changed. -/
def updateDoc (st : CollState) (id : String) (newData : JObj) : UpdateResult × CollState :=
  match findDoc st id with
  | none => (⟨0, 0⟩, st)
  | some doc =>
      let doc2 := applySet doc newData
      if doc2 == doc then (⟨1, 0⟩, st)
      else (⟨1, 1⟩, st.map (fun p => if p.1 == id then (p.1, doc2) else p))

/-- The body-validation guard on `name`:
`req.body.name && typeof req.body.name !== 'string'`. -/
def putNameBad (nameV : JVal) : Bool :=
  nameV.truthy && !nameV.isStr

/-- The body-validation guard on `price`:
`req.body.price && (typeof req.body.price !== 'number' || req.body.price <= 0)`. -/
def putPriceBad (priceV : JVal) : Bool :=
  priceV.truthy && (!priceV.isNum || decide (priceV.asNum ≤ 0))

/-- `app.put('/items/:id')`.  Note that `newData` always carries both
`name` and `price`, taking `undefined` for any field absent from the
body, exactly as the source builds it. -/
def putItemById (id : String) (body : JObj) (st : CollState) : HandlerResult :=
  if !isValidObjectId id then
    { resp := ⟨400, msgBody "Invalid ID format. Must be a valid MongoDB ObjectId."⟩,
      items := st, calls := [] }
  else if body.isEmpty then
    { resp := ⟨400, msgBody "Request body cannot be empty for update."⟩,
      items := st, calls := [] }
  else if putNameBad (getField body "name") then
    { resp := ⟨400, msgBody "Name must be a string if provided."⟩,
      items := st, calls := [] }
  else if putPriceBad (getField body "price") then
    { resp := ⟨400, msgBody "Price must be a positive number if provided."⟩,
      items := st, calls := [] }
  else
    let newData : JObj := [("name", getField body "name"), ("price", getField body "price")]
    let r := updateDoc st id newData
    if r.1.matchedCount == 0 then
      { resp := ⟨404, msgBody "Item not found!"⟩, items := r.2, calls := [.updateItem id newData] }
    else if r.1.modifiedCount == 0 then
      { resp := ⟨200, msgBody "Item found, but no changes applied (data was identical)."⟩,
        items := r.2, calls := [.updateItem id newData] }
    else
      { resp := ⟨200, msgBody "Item updated successfully!" ++ [("updatedId", .vStr id)]⟩,
        items := r.2, calls := [.updateItem id newData] }

/-! ### POST /register -/

/-- Result of the register handler over the users collection. -/
structure RegisterResult where
  resp : Response
  users : CollState
  calls : List StoreCall
deriving DecidableEq, Repr

/-- `password.length < 6` in JavaScript: `.length` exists only on a
string here; on other values it is `undefined` and `undefined < 6` is
`false`. -/
def passLenLt6 : JVal → Bool
  | .vStr s => decide (s.length < 6)
  | _ => false

/-- `findOne({username})` on the users collection. -/
def findUserByUsername (us : CollState) (u : JVal) : Option JObj :=
  match us.find? (fun p => getField p.2 "username" == u) with
  | some p => some p.2
  | none => none

/-- `app.post('/register')`.  The bcrypt salt-and-hash step is opaque and
passed in as `hashFn`; the store assigns `freshId` on insert. -/
def registerUser (body : JObj) (hashFn : JVal → JVal) (freshId : String)
    (us : CollState) : RegisterResult :=
  let usernameV := getField body "username"
  let passwordV := getField body "password"
  if !usernameV.truthy || !passwordV.truthy then
    { resp := ⟨400, msgBody "Enter a username and password to register."⟩,
      users := us, calls := [] }
  else if passLenLt6 passwordV then
    { resp := ⟨400, msgBody "Password must be less than 6 characters"⟩,
      users := us, calls := [] }
  else
    match findUserByUsername us usernameV with
    | some _ =>
        { resp := ⟨409, msgBody "User already exists pls try another name!"⟩,
          users := us, calls := [.findUser usernameV] }
    | none =>
        let newUser : JObj := [("username", usernameV), ("password", hashFn passwordV)]
        { resp := ⟨201, [("message", .vStr "User registered successfully!"),
                         ("userId", .vStr freshId)]⟩,
          users := us ++ [(freshId, newUser)],
          calls := [.findUser usernameV, .insertUser newUser] }

end Backend3

namespace Backend3

/-! ### Helper lemmas about the store model -/

lemma findDoc_append_single (st : CollState) (id : String) (d : JObj)
    (h : findDoc st id = none) : findDoc (st ++ [(id, d)]) id = some d := by
  unfold findDoc at h ⊢
  rw [List.find?_append]
  cases hf : st.find? (fun p => p.1 == id) with
  | none => simp [List.find?]
  | some p => rw [hf] at h; simp at h

lemma findDoc_filter_self (st : CollState) (id : String) :
    findDoc (st.filter (fun p => p.1 != id)) id = none := by
  unfold findDoc
  cases hf : (st.filter (fun p => p.1 != id)).find? (fun p => p.1 == id) with
  | none => rfl
  | some p =>
      have hmem := List.mem_of_find?_eq_some hf
      have hpred := List.find?_some hf
      have hkeep := List.of_mem_filter hmem
      simp only [bne_iff_ne, ne_eq] at hkeep
      simp only [beq_iff_eq] at hpred
      exact absurd hpred hkeep

lemma findUser_append_single (us : CollState) (i : String) (d : JObj) (u : JVal)
    (hnone : findUserByUsername us u = none) (hd : getField d "username" = u) :
    findUserByUsername (us ++ [(i, d)]) u = some d := by
  unfold findUserByUsername at hnone ⊢
  rw [List.find?_append]
  cases hf : us.find? (fun p => getField p.2 "username" == u) with
  | none => simp [List.find?, hd]
  | some p => rw [hf] at hnone; simp at hnone

end Backend3

namespace Backend3

lemma registerUser_body_keys (body : JObj) (hf : JVal → JVal) (fid : String) (us : CollState)
    (k : String) (v : JVal) (hmem : (k, v) ∈ (registerUser body hf fid us).resp.body) :
    k = "message" ∨ k = "userId" := by
  unfold registerUser at hmem
  dsimp only at hmem
  split at hmem
  · simp [msgBody] at hmem
    exact Or.inl hmem.1
  · split at hmem
    · simp [msgBody] at hmem
      exact Or.inl hmem.1
    · split at hmem
      · simp [msgBody] at hmem
        exact Or.inl hmem.1
      · simp at hmem
        rcases hmem with ⟨hk, _⟩ | ⟨hk, _⟩
        · exact Or.inl hk
        · exact Or.inr hk

/-- Claim C1: the spec requires true partial-update semantics (fields
absent from the body are left unchanged).  The code instead always sends
both `name` and `price` in the `$set` document, so an update that supplies
only `price` overwrites the stored `name` with `null`: evaluated at a
well-formed existing id holding `{name: "Widget", price: 1}` and the body
`{price: 2}`, the handler answers 200 but the stored `name` is erased. -/
theorem C1_update_overwrites_absent_field :
    (putItemById "aaaaaaaaaaaaaaaaaaaaaaaa" [("price", .vNum 2)]
        [("aaaaaaaaaaaaaaaaaaaaaaaa",
          [("name", .vStr "Widget"), ("price", .vNum 1)])]).resp.status = 200 ∧
    findDoc (putItemById "aaaaaaaaaaaaaaaaaaaaaaaa" [("price", .vNum 2)]
        [("aaaaaaaaaaaaaaaaaaaaaaaa",
          [("name", .vStr "Widget"), ("price", .vNum 1)])]).items "aaaaaaaaaaaaaaaaaaaaaaaa"
      = some [("name", .vNull), ("price", .vNum 2)] :=
  ⟨rfl, rfl⟩

/-- Claim C2: the persisted-item invariant `price > 0` is broken by the
update handler: because `req.body.price && ...` skips the price check when
`price` is `0` (falsy), the body `{price: 0}` passes validation and the
store writes `price: 0` (and `name: null`, via the C1 overwrite) into an
existing document. -/
theorem C2_price_invariant_broken_by_update :
    (putItemById "aaaaaaaaaaaaaaaaaaaaaaaa" [("price", .vNum 0)]
        [("aaaaaaaaaaaaaaaaaaaaaaaa",
          [("name", .vStr "Widget"), ("price", .vNum 1)])]).resp.status = 200 ∧
    findDoc (putItemById "aaaaaaaaaaaaaaaaaaaaaaaa" [("price", .vNum 0)]
        [("aaaaaaaaaaaaaaaaaaaaaaaa",
          [("name", .vStr "Widget"), ("price", .vNum 1)])]).items "aaaaaaaaaaaaaaaaaaaaaaaa"
      = some [("name", .vNull), ("price", .vNum 0)] :=
  ⟨rfl, rfl⟩

/-- Claim C3 counterexample: the claim says a create request whose `name`
is not a non-empty string gets a 400 and no store call; but the code only
checks truthiness, so the body `{name: 5, price: 2}` is accepted: the
response is 201 and `insertOne` is called with the non-string name. -/
theorem C3_truthy_nonstring_name_accepted :
    (postItems [("name", .vNum 5), ("price", .vNum 2)] "aaaaaaaaaaaaaaaaaaaaaaaa" []).resp.status
      = 201 ∧
    (postItems [("name", .vNum 5), ("price", .vNum 2)] "aaaaaaaaaaaaaaaaaaaaaaaa" []).calls
      = [.insertItem [("name", .vNum 5), ("price", .vNum 2)]] :=
  ⟨rfl, rfl⟩

/-- Claim C3 (amended): create-item validation fails with 400 and no
store call exactly when `name` is falsy (absent, empty string, `0`,
`false`, `null`) or `price` is not a number or `price ≤ 0`; otherwise
(any truthy `name`, numeric `price > 0`) the request passes validation
and the document is inserted with a 201. -/
theorem C3_create_validation_amended (body : JObj) (fid : String) (st : CollState) :
    (((getField body "name").truthy = false ∨ (getField body "price").isNum = false ∨
        (getField body "price").asNum ≤ 0) →
      (postItems body fid st).resp.status = 400 ∧ (postItems body fid st).calls = [] ∧
        (postItems body fid st).items = st) ∧
    ((getField body "name").truthy = true → (getField body "price").isNum = true →
      0 < (getField body "price").asNum →
      (postItems body fid st).resp.status = 201 ∧
        (postItems body fid st).calls
          = [.insertItem [("name", getField body "name"), ("price", getField body "price")]] ∧
        (postItems body fid st).items
          = st ++ [(fid, [("name", getField body "name"), ("price", getField body "price")])]) := by
  constructor
  · intro h
    have hbad : itemValBad (getField body "name") (getField body "price") = true := by
      unfold itemValBad
      rcases h with h | h | h <;> simp [h]
    simp [postItems, hbad]
  · intro h1 h2 h3
    have hbad : itemValBad (getField body "name") (getField body "price") = false := by
      unfold itemValBad
      simp [h1, h2, not_le.mpr h3]
    simp [postItems, hbad]

/-- Claim C3 amended, witness: the valid body `{name: "Pen", price: 2}`
passes validation and is inserted with a 201. -/
theorem C3_create_validation_amended_witness :
    (postItems [("name", .vStr "Pen"), ("price", .vNum 2)] "aaaaaaaaaaaaaaaaaaaaaaaa" []).resp.status
        = 201 ∧
      (postItems [("name", .vStr "Pen"), ("price", .vNum 2)] "aaaaaaaaaaaaaaaaaaaaaaaa" []).calls
        = [.insertItem [("name", .vStr "Pen"), ("price", .vNum 2)]] ∧
      (postItems [("name", .vStr "Pen"), ("price", .vNum 2)] "aaaaaaaaaaaaaaaaaaaaaaaa" []).items
        = [("aaaaaaaaaaaaaaaaaaaaaaaa", [("name", .vStr "Pen"), ("price", .vNum 2)])] :=
  (C3_create_validation_amended [("name", .vStr "Pen"), ("price", .vNum 2)]
      "aaaaaaaaaaaaaaaaaaaaaaaa" []).2 (by decide) (by decide) (by decide)

/-- Claim C4: a register request with password "abc" (shorter than 6
characters) is rejected with 400 before any store call, as the claim
requires — but the failure message is the misleading
"Password must be less than 6 characters", which does not describe the
enforced minimum-length rule. -/
theorem C4_password_message_misleading :
    (registerUser [("username", .vStr "alice"), ("password", .vStr "abc")]
        (fun v => v) "aaaaaaaaaaaaaaaaaaaaaaaa" []).resp
      = ⟨400, [("message", .vStr "Password must be less than 6 characters")]⟩ ∧
    (registerUser [("username", .vStr "alice"), ("password", .vStr "abc")]
        (fun v => v) "aaaaaaaaaaaaaaaaaaaaaaaa" []).calls = [] :=
  ⟨rfl, rfl⟩

/-- Claim C6: a malformed identifier (failing `ObjectId.isValid`) makes
each of the three id-addressed handlers answer 400, leave the collection
unchanged, and make no store call. -/
theorem C6_malformed_id_rejected_no_store (id : String) (body : JObj) (st : CollState)
    (h : isValidObjectId id = false) :
    ((getItemById id st).resp.status = 400 ∧ (getItemById id st).calls = [] ∧
      (getItemById id st).items = st) ∧
    ((deleteItemById id st).resp.status = 400 ∧ (deleteItemById id st).calls = [] ∧
      (deleteItemById id st).items = st) ∧
    ((putItemById id body st).resp.status = 400 ∧ (putItemById id body st).calls = [] ∧
      (putItemById id body st).items = st) := by
  simp [getItemById, deleteItemById, putItemById, h]

/-- Claim C6 witness: the malformed identifier "zz" is rejected by all
three id-addressed handlers without a store call. -/
theorem C6_malformed_id_rejected_no_store_witness :
    ((getItemById "zz" []).resp.status = 400 ∧ (getItemById "zz" []).calls = [] ∧
      (getItemById "zz" []).items = []) ∧
    ((deleteItemById "zz" []).resp.status = 400 ∧ (deleteItemById "zz" []).calls = [] ∧
      (deleteItemById "zz" []).items = []) ∧
    ((putItemById "zz" [("price", .vNum 2)] []).resp.status = 400 ∧
      (putItemById "zz" [("price", .vNum 2)] []).calls = [] ∧
      (putItemById "zz" [("price", .vNum 2)] []).items = []) :=
  C6_malformed_id_rejected_no_store "zz" [("price", .vNum 2)] [] (by decide)

/-- Claim C8: an update request with an empty body always answers 400 and
makes no store call, whatever the identifier and whatever the collection
state (so existence of the item is never consulted). -/
theorem C8_empty_update_body_400 (id : String) (st : CollState) :
    (putItemById id [] st).resp.status = 400 ∧ (putItemById id [] st).calls = [] ∧
      (putItemById id [] st).items = st := by
  cases h : isValidObjectId id <;> simp [putItemById, h]

end Backend3

namespace Backend3

/-- Claim C5: once an update request passes validation (well-formed id,
non-empty body, valid field types), the response is determined by the
store's update result, existence first: `matchedCount = 0` gives 404;
`matchedCount > 0` with `modifiedCount = 0` gives 200 with the
"no changes" message; `modifiedCount > 0` gives 200 with the "updated"
message — so an existing-but-identical update is a success. -/
theorem C5_update_result_mapping (id : String) (body : JObj) (st : CollState)
    (hid : isValidObjectId id = true) (hne : body.isEmpty = false)
    (hn : putNameBad (getField body "name") = false)
    (hp : putPriceBad (getField body "price") = false) :
    ((updateDoc st id [("name", getField body "name"),
          ("price", getField body "price")]).1.matchedCount = 0 →
        (putItemById id body st).resp = ⟨404, msgBody "Item not found!"⟩) ∧
    ((updateDoc st id [("name", getField body "name"),
          ("price", getField body "price")]).1.matchedCount ≠ 0 →
      (updateDoc st id [("name", getField body "name"),
          ("price", getField body "price")]).1.modifiedCount = 0 →
        (putItemById id body st).resp
          = ⟨200, msgBody "Item found, but no changes applied (data was identical)."⟩) ∧
    ((updateDoc st id [("name", getField body "name"),
          ("price", getField body "price")]).1.matchedCount ≠ 0 →
      (updateDoc st id [("name", getField body "name"),
          ("price", getField body "price")]).1.modifiedCount ≠ 0 →
        (putItemById id body st).resp
          = ⟨200, msgBody "Item updated successfully!" ++ [("updatedId", .vStr id)]⟩) := by
  refine ⟨?_, ?_, ?_⟩
  · intro h1
    simp [putItemById, hid, hne, hn, hp, h1]
  · intro h1 h2
    simp [putItemById, hid, hne, hn, hp, h1, h2]
  · intro h1 h2
    simp [putItemById, hid, hne, hn, hp, h1, h2]

/-- Claim C5 witness: updating an existing item with its current field
values answers 200 with the "no changes" message. -/
theorem C5_update_result_mapping_witness :
    (putItemById "aaaaaaaaaaaaaaaaaaaaaaaa"
        [("name", .vStr "Widget"), ("price", .vNum 1)]
        [("aaaaaaaaaaaaaaaaaaaaaaaa",
          [("name", .vStr "Widget"), ("price", .vNum 1)])]).resp
      = ⟨200, msgBody "Item found, but no changes applied (data was identical)."⟩ :=
  (C5_update_result_mapping "aaaaaaaaaaaaaaaaaaaaaaaa"
      [("name", .vStr "Widget"), ("price", .vNum 1)]
      [("aaaaaaaaaaaaaaaaaaaaaaaa", [("name", .vStr "Widget"), ("price", .vNum 1)])]
      (by decide) (by decide) (by decide) (by decide)).2.1 (by decide) (by decide)

/-- Claim C7: registering a username not yet present succeeds with 201;
an immediately repeated registration of the same username answers 409
(detected by the `findOne` pre-check, not an error); and no register
response of any kind carries a password or password hash: every key of
every response body is "message" or "userId", the success body being
built without any credential field. -/
theorem C7_duplicate_username_and_no_password_leak (us : CollState) (body1 body2 : JObj)
    (hf1 hf2 : JVal → JVal) (id1 id2 : String)
    (hsame : getField body2 "username" = getField body1 "username")
    (hut : (getField body1 "username").truthy = true)
    (hp1 : (getField body1 "password").truthy = true)
    (hl1 : passLenLt6 (getField body1 "password") = false)
    (hp2 : (getField body2 "password").truthy = true)
    (hl2 : passLenLt6 (getField body2 "password") = false)
    (hnone : findUserByUsername us (getField body1 "username") = none) :
    (registerUser body1 hf1 id1 us).resp.status = 201 ∧
    (registerUser body2 hf2 id2 (registerUser body1 hf1 id1 us).users).resp.status = 409 ∧
    (∀ (body : JObj) (hf : JVal → JVal) (fid : String) (vs : CollState) (k : String) (v : JVal),
        (k, v) ∈ (registerUser body hf fid vs).resp.body → k = "message" ∨ k = "userId") := by
  have hut2 : (getField body2 "username").truthy = true := by rw [hsame]; exact hut
  have husers : (registerUser body1 hf1 id1 us).users
      = us ++ [(id1, [("username", getField body1 "username"),
                      ("password", hf1 (getField body1 "password"))])] := by
    simp [registerUser, hut, hp1, hl1, hnone]
  have hfind : findUserByUsername (registerUser body1 hf1 id1 us).users
        (getField body2 "username")
      = some [("username", getField body1 "username"),
              ("password", hf1 (getField body1 "password"))] := by
    rw [husers, hsame]
    exact findUser_append_single us id1 _ _ hnone rfl
  refine ⟨?_, ?_, fun body hf fid vs k v hmem => registerUser_body_keys body hf fid vs k v hmem⟩
  · simp [registerUser, hut, hp1, hl1, hnone]
  · rw [husers] at hfind
    rw [husers]
    simp [registerUser, hut2, hp2, hl2, hfind]

/-- Claim C7 witness: registering "bob" twice on an empty users
collection answers 201 then 409. -/
theorem C7_duplicate_username_witness :
    (registerUser [("username", .vStr "bob"), ("password", .vStr "secret1")]
        (fun v => v) "aaaaaaaaaaaaaaaaaaaaaaaa" []).resp.status = 201 ∧
    (registerUser [("username", .vStr "bob"), ("password", .vStr "secret1")]
        (fun v => v) "bbbbbbbbbbbbbbbbbbbbbbbb"
        (registerUser [("username", .vStr "bob"), ("password", .vStr "secret1")]
          (fun v => v) "aaaaaaaaaaaaaaaaaaaaaaaa" []).users).resp.status = 409 :=
  have T := C7_duplicate_username_and_no_password_leak []
    [("username", .vStr "bob"), ("password", .vStr "secret1")]
    [("username", .vStr "bob"), ("password", .vStr "secret1")]
    (fun v => v) (fun v => v) "aaaaaaaaaaaaaaaaaaaaaaaa" "bbbbbbbbbbbbbbbbbbbbbbbb"
    rfl (by decide) (by decide) (by decide) (by decide) (by decide) rfl
  ⟨T.1, T.2.1⟩

/-- Claim C9: (round trip) creating an item with a non-empty string name
and a positive numeric price, at a fresh well-formed id, answers 201, and
a subsequent get of that id answers 200 with the identical name and
price; (idempotence) deleting an existing id answers 200 and deleting the
same id again answers 404. -/
theorem C9_roundtrip_and_delete_idempotence (st : CollState) (nm : String) (pr : ℚ)
    (fid : String) (hnm : nm ≠ "") (hpr : 0 < pr) (hfid : isValidObjectId fid = true)
    (hfresh : findDoc st fid = none) :
    ((postItems [("name", .vStr nm), ("price", .vNum pr)] fid st).resp.status = 201 ∧
      (getItemById fid
        (postItems [("name", .vStr nm), ("price", .vNum pr)] fid st).items).resp.status = 200 ∧
      getField (getItemById fid
        (postItems [("name", .vStr nm), ("price", .vNum pr)] fid st).items).resp.body "name"
        = .vStr nm ∧
      getField (getItemById fid
        (postItems [("name", .vStr nm), ("price", .vNum pr)] fid st).items).resp.body "price"
        = .vNum pr) ∧
    (∀ (st2 : CollState) (i : String), isValidObjectId i = true →
      (findDoc st2 i).isSome = true →
      (deleteItemById i st2).resp.status = 200 ∧
      (deleteItemById i (deleteItemById i st2).items).resp.status = 404) := by
  have hgn : getField [("name", JVal.vStr nm), ("price", JVal.vNum pr)] "name"
      = JVal.vStr nm := rfl
  have hgp : getField [("name", JVal.vStr nm), ("price", JVal.vNum pr)] "price"
      = JVal.vNum pr := rfl
  have hbad : itemValBad (JVal.vStr nm) (JVal.vNum pr) = false := by
    simp [itemValBad, JVal.truthy, JVal.isNum, JVal.asNum, hnm, not_le.mpr hpr]
  have hpost : postItems [("name", .vStr nm), ("price", .vNum pr)] fid st
      = { resp := ⟨201, [("name", .vStr nm), ("price", .vNum pr), ("_id", .vStr fid)]⟩,
          items := st ++ [(fid, [("name", .vStr nm), ("price", .vNum pr)])],
          calls := [.insertItem [("name", .vStr nm), ("price", .vNum pr)]] } := by
    simp [postItems, hgn, hgp, hbad]
  have hfind2 : findDoc (st ++ [(fid, [("name", JVal.vStr nm), ("price", JVal.vNum pr)])]) fid
      = some [("name", JVal.vStr nm), ("price", JVal.vNum pr)] :=
    findDoc_append_single st fid _ hfresh
  have hget : getItemById fid
        (postItems [("name", .vStr nm), ("price", .vNum pr)] fid st).items
      = { resp := ⟨200, [("name", .vStr nm), ("price", .vNum pr), ("_id", .vStr fid)]⟩,
          items := st ++ [(fid, [("name", .vStr nm), ("price", .vNum pr)])],
          calls := [.findItem fid] } := by
    rw [hpost]
    simp [getItemById, hfid, hfind2]
  constructor
  · refine ⟨by rw [hpost], by rw [hget], ?_, ?_⟩
    · rw [hget]
      rfl
    · rw [hget]
      rfl
  · intro st2 i hi hissome
    cases hfd : findDoc st2 i with
    | none => rw [hfd] at hissome; simp at hissome
    | some d =>
        have h1 : deleteItemById i st2
            = { resp := ⟨200, msgBody "Item has been deleted!"⟩,
                items := st2.filter (fun x => x.1 != i), calls := [.deleteItem i] } := by
          simp [deleteItemById, deleteDoc, hi, hfd]
        constructor
        · rw [h1]
        · rw [h1]
          simp [deleteItemById, deleteDoc, hi, findDoc_filter_self]

/-- Claim C9 witness: creating `{name: "Widget", price: 2}` at a fresh id
and reading it back returns the same name and price; deleting an
existing id twice answers 200 then 404. -/
theorem C9_roundtrip_witness :
    ((postItems [("name", .vStr "Widget"), ("price", .vNum 2)]
        "aaaaaaaaaaaaaaaaaaaaaaaa" []).resp.status = 201 ∧
      (getItemById "aaaaaaaaaaaaaaaaaaaaaaaa"
        (postItems [("name", .vStr "Widget"), ("price", .vNum 2)]
          "aaaaaaaaaaaaaaaaaaaaaaaa" []).items).resp.status = 200 ∧
      getField (getItemById "aaaaaaaaaaaaaaaaaaaaaaaa"
        (postItems [("name", .vStr "Widget"), ("price", .vNum 2)]
          "aaaaaaaaaaaaaaaaaaaaaaaa" []).items).resp.body "name" = .vStr "Widget" ∧
      getField (getItemById "aaaaaaaaaaaaaaaaaaaaaaaa"
        (postItems [("name", .vStr "Widget"), ("price", .vNum 2)]
          "aaaaaaaaaaaaaaaaaaaaaaaa" []).items).resp.body "price" = .vNum 2) ∧
    ((deleteItemById "aaaaaaaaaaaaaaaaaaaaaaaa"
        [("aaaaaaaaaaaaaaaaaaaaaaaa", [("name", .vStr "Widget")])]).resp.status = 200 ∧
      (deleteItemById "aaaaaaaaaaaaaaaaaaaaaaaa"
        (deleteItemById "aaaaaaaaaaaaaaaaaaaaaaaa"
          [("aaaaaaaaaaaaaaaaaaaaaaaa",
            [("name", .vStr "Widget")])]).items).resp.status = 404) :=
  have T := C9_roundtrip_and_delete_idempotence [] "Widget" 2 "aaaaaaaaaaaaaaaaaaaaaaaa"
    (by decide) (by decide) (by decide) rfl
  ⟨T.1, T.2 [("aaaaaaaaaaaaaaaaaaaaaaaa", [("name", .vStr "Widget")])]
    "aaaaaaaaaaaaaaaaaaaaaaaa" (by decide) (by decide)⟩

/-- Claim C10: whenever a create request succeeds (201), the persisted
document holds exactly the `name` and `price` taken from the request body
(keyed under the generated id), and the response body holds exactly those
two fields plus `_id`; any other field supplied in the request body is
neither persisted nor echoed back. -/
theorem C10_create_persists_only_name_price (body : JObj) (fid : String) (st : CollState)
    (h : (postItems body fid st).resp.status = 201) :
    (postItems body fid st).items
        = st ++ [(fid, [("name", getField body "name"), ("price", getField body "price")])] ∧
    (postItems body fid st).resp.body
        = [("name", getField body "name"), ("price", getField body "price"),
           ("_id", .vStr fid)] ∧
    (postItems body fid st).resp.body.map Prod.fst = ["name", "price", "_id"] := by
  cases hb : itemValBad (getField body "name") (getField body "price") with
  | true => simp [postItems, hb] at h
  | false => simp [postItems, hb]

/-- Claim C10 witness: a create request carrying an extra `color` field
persists and echoes only `name`, `price` and the generated `_id`. -/
theorem C10_create_persists_only_name_price_witness :
    (postItems [("name", .vStr "Pen"), ("price", .vNum 2), ("color", .vStr "red")]
        "aaaaaaaaaaaaaaaaaaaaaaaa" []).items
        = [("aaaaaaaaaaaaaaaaaaaaaaaa", [("name", .vStr "Pen"), ("price", .vNum 2)])] ∧
    (postItems [("name", .vStr "Pen"), ("price", .vNum 2), ("color", .vStr "red")]
        "aaaaaaaaaaaaaaaaaaaaaaaa" []).resp.body
        = [("name", .vStr "Pen"), ("price", .vNum 2),
           ("_id", .vStr "aaaaaaaaaaaaaaaaaaaaaaaa")] ∧
    (postItems [("name", .vStr "Pen"), ("price", .vNum 2), ("color", .vStr "red")]
        "aaaaaaaaaaaaaaaaaaaaaaaa" []).resp.body.map Prod.fst = ["name", "price", "_id"] :=
  C10_create_persists_only_name_price
    [("name", .vStr "Pen"), ("price", .vNum 2), ("color", .vStr "red")]
    "aaaaaaaaaaaaaaaaaaaaaaaa" [] (by decide)

end Backend3
